import Mathlib

/-!
Verification of the slack-notifications-mcp server (`index.js`).

The development shallowly embeds the server's message-parsing core and its
tool dispatcher:

* `classifyStatus`   — the status keyword cascade (index.js lines 244-255);
* `extractDuration`  — the five-pattern duration extractor (lines 181-208);
* `extractWorkflow`  — the workflow extractor with title fallback (lines 211-237);
* `buildMessage`     — the per-message normalizer inside `buildMessages` (lines 240-272);
* `filterPred` / `checkBuildBuilds` / `fetchLimit` — the filter/limit pipeline
  (lines 161-167 and 275-286);
* `runTool` / `callTool` — the `CallToolRequestSchema` handler with its
  `switch` and surrounding `try`/`catch` (lines 144-485).

JavaScript regular expressions (all used with the `i` flag and no `g` flag,
via `String.match`, i.e. leftmost match with greedy backtracking) are embedded
by a small executable backtracking engine over `List Char` covering exactly
the constructs appearing in the source patterns: literals, character classes,
sequencing, greedy `?`, `+`, `*`, alternation and capturing groups.

Modelling notes, each claim-irrelevant and stated where it applies:
strings are treated as sequences of Unicode scalar values (JavaScript indexes
UTF-16 code units; all source patterns and truncation bounds are ASCII-safe);
`parseFloat` exponent/`Infinity` forms are not modelled (Slack timestamps are
plain decimals); IEEE-754 rounding of the parsed timestamp is replaced by
exact decimal arithmetic; `JSON.stringify`'s two-space pretty-printing is
rendered compactly (field order and `undefined`-omission are preserved).
-/

/-! ## JavaScript string helpers -/

/-- `c` is matched by the JavaScript regex class `\s` (which coincides with
the character set removed by `String.prototype.trim`). -/
def isJsSpace (c : Char) : Bool :=
  c == ' ' || c == '\t' || c == '\n' || c == '\x0B' || c == '\x0C' || c == '\r' ||
  c == '\u00A0' || c == '\u1680' || ('\u2000' ≤ c && c ≤ '\u200A') ||
  c == '\u2028' || c == '\u2029' || c == '\u202F' || c == '\u205F' || c == '\u3000' || c == '\uFEFF'

/-- `String.prototype.toLowerCase` (ASCII range; every keyword and pattern in
the source is ASCII). -/
def lowerStr (s : String) : String := String.mk (s.data.map Char.toLower)

/-- `needle` is a leading segment of `hay`. -/
def isLeadingCL : List Char → List Char → Bool
  | [], _ => true
  | _ :: _, [] => false
  | a :: as, b :: bs => a == b && isLeadingCL as bs

/-- `needle` occurs contiguously inside `hay`
(`String.prototype.includes` on character lists). -/
def containsCL (needle : List Char) : List Char → Bool
  | [] => isLeadingCL needle []
  | c :: rest => isLeadingCL needle (c :: rest) || containsCL needle rest

/-- `hay.includes(needle)`. -/
def containsStr (hay needle : String) : Bool := containsCL needle.data hay.data

/-- `String.prototype.trim`. -/
def trimJs (s : String) : String :=
  String.mk (((s.data.dropWhile isJsSpace).reverse.dropWhile isJsSpace).reverse)

/-- `s.substring(0, n)`. -/
def strTake (n : Nat) (s : String) : String := String.mk (s.data.take n)

/-- JavaScript truthiness of an optional string (`undefined` and `""` are falsy). -/
def jsTruthyStr (o : Option String) : Bool :=
  match o with
  | none => false
  | some s => !(s == "")

/-- JavaScript `a || b` on optional strings. -/
def jsOrStr (a b : Option String) : Option String := if jsTruthyStr a then a else b

/-- JavaScript `x || d` for an optional number argument (`undefined` and `0` are
falsy, so both yield the default). -/
def jsOrNat (o : Option Nat) (d : Nat) : Nat :=
  match o with
  | none => d
  | some 0 => d
  | some n => n

/-- Numeric value of a digit string (the effect of `parseInt` on the all-digit
captures produced by `\d+`). -/
def digitsToNat (ds : List Char) : Nat := ds.foldl (fun n c => n * 10 + (c.toNat - 48)) 0

/-! ## Regex engine

Embeds the JavaScript regex constructs used by the source patterns, with
`i`-flag semantics: literals compare case-insensitively and the class `[A-Z]`
matches any ASCII letter. `String.match` without `g` returns the leftmost
match, alternatives explored in greedy backtracking order; the engine below
reproduces that order. -/

/-- Capture state: the source patterns use at most two capturing groups. -/
structure Caps where
  g1 : Option (List Char)
  g2 : Option (List Char)
deriving Repr, DecidableEq

def Caps.set (c : Caps) (n : Nat) (v : List Char) : Caps :=
  if n == 1 then { c with g1 := some v } else { c with g2 := some v }

/-- Regex abstract syntax: exactly the constructs appearing in the source
patterns. `lit` literals are stored lower-case and compared case-insensitively
(`i` flag); `plus`/`starCls` are greedy quantifiers over one-character
classes; `starRe` is a greedy star over a subexpression that consumes at
least one character per iteration. -/
inductive Re where
  | cls : (Char → Bool) → Re
  | lit : List Char → Re
  | seq : Re → Re → Re
  | opt : Re → Re
  | alt : Re → Re → Re
  | plus : (Char → Bool) → Re
  | starCls : (Char → Bool) → Re
  | starRe : Re → Re
  | group : Nat → Re → Re

/-- Strip a case-insensitive literal from the head of the input. -/
def stripLitCI : List Char → List Char → Option (List Char)
  | [], cs => some cs
  | _ :: _, [] => none
  | p :: ps, c :: cs => if Char.toLower c == p then stripLitCI ps cs else none

/-- All remainders obtainable by removing a run of `p`-characters from the
front of the input, longest removal first (greedy backtracking order). -/
def chomps (p : Char → Bool) : List Char → List (List Char)
  | [] => [[]]
  | c :: cs => if p c then chomps p cs ++ [c :: cs] else [c :: cs]

/-- Greedy star over a subexpression matcher `m`: try one more iteration
first, fall back to stopping; an iteration must consume input (JavaScript
also stops a quantifier on an empty-width iteration). `fuel` bounds the
iteration count; it is seeded with the input length, which the
consumption guard makes sufficient. -/
def matchStar (m : List Char → Caps → (List Char → Caps → Option Caps) → Option Caps) :
    Nat → List Char → Caps → (List Char → Caps → Option Caps) → Option Caps
  | 0, cs, caps, k => k cs caps
  | Nat.succ fuel, cs, caps, k =>
    (m cs caps (fun cs' caps' =>
      if cs'.length < cs.length then matchStar m fuel cs' caps' k else none)) <|> k cs caps

/-- Backtracking matcher in continuation-passing style: `matchRe r cs caps k`
tries every way `r` can match a leading segment of `cs` in JavaScript
backtracking order, calling `k` on the remainder and updated captures. -/
def matchRe : Re → List Char → Caps → (List Char → Caps → Option Caps) → Option Caps
  | .cls p, cs, caps, k =>
    match cs with
    | [] => none
    | c :: rest => if p c then k rest caps else none
  | .lit l, cs, caps, k =>
    match stripLitCI l cs with
    | some rest => k rest caps
    | none => none
  | .seq a b, cs, caps, k => matchRe a cs caps (fun cs' caps' => matchRe b cs' caps' k)
  | .opt a, cs, caps, k => (matchRe a cs caps k) <|> k cs caps
  | .alt a b, cs, caps, k => (matchRe a cs caps k) <|> (matchRe b cs caps k)
  | .plus p, cs, caps, k =>
    match cs with
    | [] => none
    | c :: rest => if p c then (chomps p rest).findSome? (fun cs' => k cs' caps) else none
  | .starCls p, cs, caps, k => (chomps p cs).findSome? (fun cs' => k cs' caps)
  | .starRe a, cs, caps, k =>
    matchStar (fun cs' caps' k' => matchRe a cs' caps' k') cs.length cs caps k
  | .group n a, cs, caps, k =>
    matchRe a cs caps (fun cs' caps' => k cs' (caps'.set n (cs.take (cs.length - cs'.length))))

/-- Match `r` at the current position only, returning the captures of the
first (in backtracking order) successful match. -/
def tryMatch (r : Re) (cs : List Char) : Option Caps :=
  matchRe r cs ⟨none, none⟩ (fun _ caps => some caps)

/-- `text.match(r)` for an unanchored pattern: try successive start positions
left to right and return the captures of the leftmost match. -/
def searchFrom (r : Re) : List Char → Option Caps
  | [] => tryMatch r []
  | c :: cs => tryMatch r (c :: cs) <|> searchFrom r cs
/-! ## Data model (Slack message shapes used by the handlers) -/

/-- A Slack attachment as read by the source (`a.title`, `a.text`, `a.color`;
each may be `undefined`). The same shape is reused for the truncated
attachments on a `ParsedBuild`. -/
structure Attachment where
  title : Option String
  text : Option String
  color : Option String
deriving Repr, DecidableEq

/-- A raw Slack message from `conversations.history` as read by the source
(`msg.ts`, `msg.text`, `msg.attachments`, `msg.user`, `msg.bot_id`). -/
structure RawMessage where
  ts : String
  text : Option String
  attachments : Option (List Attachment)
  user : Option String
  botId : Option String
deriving Repr, DecidableEq

/-- The duration value object built by `extractDuration` (lines 199-204). -/
structure Duration where
  minutes : Nat
  seconds : Nat
  totalSeconds : Nat
  formatted : String
deriving Repr, DecidableEq

/-- One entry of the `buildMessages` array (lines 260-271). `timestamp` is the
ISO-8601 rendering produced on line 241. -/
structure ParsedBuild where
  timestamp : String
  status : String
  workflow : Option String
  duration : Option Duration
  text : String
  attachments : Option (List Attachment)
deriving Repr, DecidableEq

/-! ## Combined searchable text (lines 191 and 213) -/

/-- `attachments?.map(a => `title text`).join(' ') || ''`. -/
def attachmentsBlob (atts : Option (List Attachment)) : String :=
  match atts with
  | none => ""
  | some l => String.intercalate " " (l.map fun a => (a.title.getD "") ++ " " ++ (a.text.getD ""))

/-- `text + ' ' + (attachments?.map(...).join(' ') || '')`. -/
def combinedText (text : String) (atts : Option (List Attachment)) : String :=
  text ++ " " ++ attachmentsBlob atts

/-! ## Character classes of the source patterns -/

/-- `[:\s]` (line 184 and line 217). -/
def colonOrSpace (c : Char) : Bool := c == ':' || isJsSpace c

/-- `[^\n\r,]` (line 217). -/
def notNlCrComma (c : Char) : Bool := !(c == '\n' || c == '\r' || c == ',')

/-- `[A-Z]` under the `i` flag (line 218): any ASCII letter. -/
def asciiAlpha (c : Char) : Bool := ('A' ≤ c && c ≤ 'Z') || ('a' ≤ c && c ≤ 'z')

/-- `[a-zA-Z0-9-]` under the `i` flag (line 218). -/
def wordDash (c : Char) : Bool := asciiAlpha c || Char.isDigit c || c == '-'

/-! ## Duration extractor (lines 181-208) -/

/-- `(?:min(?:ute)?s?)`. -/
def minWord : Re :=
  .seq (.lit "min".data) (.seq (.opt (.lit "ute".data)) (.opt (.lit "s".data)))

/-- `(?:sec(?:ond)?s?)`. -/
def secWord : Re :=
  .seq (.lit "sec".data) (.seq (.opt (.lit "ond".data)) (.opt (.lit "s".data)))

/-- `(\d+)\s*(?:min(?:ute)?s?)?(?:\s*(\d+)\s*(?:sec(?:ond)?s?)?)?` — the
common tail of duration patterns 1-3. -/
def numTail : Re :=
  .seq (.group 1 (.plus Char.isDigit))
  (.seq (.starCls isJsSpace)
  (.seq (.opt minWord)
  (.opt (.seq (.starCls isJsSpace)
        (.seq (.group 2 (.plus Char.isDigit))
        (.seq (.starCls isJsSpace) (.opt secWord)))))))

/-- Pattern 1 (line 184): `/duration[:\s]+(\d+)\s*(?:min(?:ute)?s?)?(?:\s*(\d+)\s*(?:sec(?:ond)?s?)?)?/i`. -/
def durationPat1 : Re := .seq (.lit "duration".data) (.seq (.plus colonOrSpace) numTail)

/-- Pattern 2 (line 185): `/took\s+(\d+)...`. -/
def durationPat2 : Re := .seq (.lit "took".data) (.seq (.plus isJsSpace) numTail)

/-- Pattern 3 (line 186): `/completed\s+in\s+(\d+)...`. -/
def durationPat3 : Re :=
  .seq (.lit "completed".data)
  (.seq (.plus isJsSpace) (.seq (.lit "in".data) (.seq (.plus isJsSpace) numTail)))

/-- Pattern 4 (line 187): `/(\d+)\s*(?:min(?:ute)?s?)\s*(?:(\d+)\s*(?:sec(?:ond)?s?)?)?/i`
(the min-word is mandatory here). -/
def durationPat4 : Re :=
  .seq (.group 1 (.plus Char.isDigit))
  (.seq (.starCls isJsSpace)
  (.seq minWord
  (.seq (.starCls isJsSpace)
  (.opt (.seq (.group 2 (.plus Char.isDigit))
        (.seq (.starCls isJsSpace) (.opt secWord)))))))

/-- Pattern 5 (line 188): `/(\d+):(\d+)\s*(?:min)?/i` — MM:SS format. -/
def durationPat5 : Re :=
  .seq (.group 1 (.plus Char.isDigit))
  (.seq (.cls (fun c => c == ':'))
  (.seq (.group 2 (.plus Char.isDigit))
  (.seq (.starCls isJsSpace) (.opt (.lit "min".data)))))

/-- The ordered `patterns` array of `extractDuration` (lines 183-189). -/
def durationPatterns : List Re :=
  [durationPat1, durationPat2, durationPat3, durationPat4, durationPat5]

/-- Lines 196-204: `mins = parseInt(match[1]) || 0`, `secs = parseInt(match[2]) || 0`
(an unparticipating group 2 is `undefined`, giving 0), `totalSeconds`,
`formatted`. -/
def capsToDuration (c : Caps) : Duration :=
  let mins := match c.g1 with | some d => digitsToNat d | none => 0
  let secs := match c.g2 with | some d => digitsToNat d | none => 0
  { minutes := mins, seconds := secs, totalSeconds := mins * 60 + secs,
    formatted :=
      if mins > 0 then toString mins ++ "m " ++ toString secs ++ "s"
      else toString secs ++ "s" }

/-- `extractDuration` (lines 181-208): build the combined text, try the five
patterns in order, convert the first match, `null` when none match. -/
def extractDuration (text : String) (atts : Option (List Attachment)) : Option Duration :=
  let allText := (combinedText text atts).data
  (durationPatterns.findSome? fun p => searchFrom p allText).map capsToDuration

/-! ## Workflow extractor (lines 211-237) -/

/-- Workflow pattern 1 (line 217): `/workflow[:\s]+([^\n\r,]+)/i`. -/
def workflowPat1 : Re :=
  .seq (.lit "workflow".data) (.seq (.plus colonOrSpace) (.group 1 (.plus notNlCrComma)))

/-- `[A-Z][a-zA-Z0-9-]+` — one capitalized word (≥ 2 chars; `i` flag makes the
capitalization vacuous). -/
def capWord : Re := .seq (.cls asciiAlpha) (.plus wordDash)

/-- Workflow pattern 2 (line 218):
`/^([A-Z][a-zA-Z0-9-]+(?:\s+[A-Z][a-zA-Z0-9-]+)*)\s+(?:build|workflow)/i`.
The `^` anchor (no `m` flag) restricts matching to the start of the string;
it is realized by matching with `tryMatch` instead of `searchFrom`. -/
def workflowPat2 : Re :=
  .seq (.group 1 (.seq capWord (.starRe (.seq (.plus isJsSpace) capWord))))
  (.seq (.plus isJsSpace) (.alt (.lit "build".data) (.lit "workflow".data)))

/-- Lines 229-234: fall back to the first attachment's title when it exists
and `0 < title.length < 50`; otherwise `null`. -/
def titleFallback (atts : Option (List Attachment)) : Option String :=
  match atts with
  | some (a :: _) =>
    match a.title with
    | some t => if 0 < t.length && t.length < 50 then some t else none
    | none => none
  | _ => none

/-- `extractWorkflow` (lines 211-237): try the two patterns in order on the
combined text (captured group trimmed), then the title fallback, else `null`. -/
def extractWorkflow (text : String) (atts : Option (List Attachment)) : Option String :=
  let allText := (combinedText text atts).data
  match searchFrom workflowPat1 allText with
  | some caps => some (trimJs (String.mk (caps.g1.getD [])))
  | none =>
    match tryMatch workflowPat2 allText with
    | some caps => some (trimJs (String.mk (caps.g1.getD [])))
    | none => titleFallback atts

/-! ## Status classifier (lines 244-255) -/

/-- The eight keywords of the four status groups, in source order. -/
def statusKeywords : List String :=
  ["succeeded", "success", "failed", "failure", "started", "running", "cancelled", "canceled"]

/-- The status cascade on the raw message body (lines 244-255):
case-insensitive substring checks, first matching group wins, default
`"unknown"`. -/
def classifyStatus (text : String) : String :=
  let t := lowerStr text
  if containsStr t "succeeded" || containsStr t "success" then "succeeded"
  else if containsStr t "failed" || containsStr t "failure" then "failed"
  else if containsStr t "started" || containsStr t "running" then "running"
  else if containsStr t "cancelled" || containsStr t "canceled" then "cancelled"
  else "unknown"

/-! ## Timestamp conversion (line 241: `new Date(parseFloat(msg.ts) * 1000).toISOString()`)

`parseFloat` is modelled by exact decimal arithmetic on its numeric prefix
(sign, integer digits, optional fraction); exponent and `Infinity` forms are
not modelled — Slack timestamps are plain decimals, and no claim depends on
them. A `NaN` result or an out-of-range date makes `toISOString` throw
`RangeError: Invalid time value`; that is modelled by `none`. -/

/-- Milliseconds since the epoch as computed by
`new Date(parseFloat(s) * 1000)`: `none` models an invalid date (which makes
the subsequent `toISOString()` throw). Truncation is toward zero, as in the
`Date` constructor's integer conversion. -/
def parseTsMillis (s : String) : Option Int :=
  let cs := s.data.dropWhile isJsSpace
  let signAndRest : Int × List Char :=
    match cs with
    | '+' :: r => (1, r)
    | '-' :: r => (-1, r)
    | r => (1, r)
  let ip := signAndRest.2.takeWhile Char.isDigit
  let rest := signAndRest.2.dropWhile Char.isDigit
  let fp := match rest with
    | '.' :: r => r.takeWhile Char.isDigit
    | _ => []
  if ip.isEmpty && fp.isEmpty then none
  else
    let f3 := digitsToNat ((fp ++ ['0', '0', '0']).take 3)
    let ms : Int := signAndRest.1 * (digitsToNat ip * 1000 + f3)
    if ms.natAbs ≤ 8640000000000000 then some ms else none

def pad2 (n : Nat) : String := if n < 10 then "0" ++ toString n else toString n

def pad3 (n : Nat) : String :=
  if n < 10 then "00" ++ toString n else if n < 100 then "0" ++ toString n else toString n

def pad4 (n : Nat) : String :=
  if n < 10 then "000" ++ toString n
  else if n < 100 then "00" ++ toString n
  else if n < 1000 then "0" ++ toString n
  else toString n

/-- `Date.prototype.toISOString` on a valid millisecond count: proleptic
Gregorian civil date (era-based conversion) plus the time of day, always UTC
with millisecond precision. (Years outside 0-9999 use an expanded form in
JavaScript; no claim depends on them and the plain four-digit form is
rendered.) -/
def isoOfMillis (ms : Int) : String :=
  let days := Int.fdiv ms 86400000
  let msod := (ms - days * 86400000).toNat
  let z := days + 719468
  let era := Int.fdiv z 146097
  let doe := (z - era * 146097).toNat
  let yoe := (doe - doe / 1460 + doe / 36524 - doe / 146096) / 365
  let doy := doe - (365 * yoe + yoe / 4 - yoe / 100)
  let mp := (5 * doy + 2) / 153
  let d := doy - (153 * mp + 2) / 5 + 1
  let m := if mp < 10 then mp + 3 else mp - 9
  let y : Int := (yoe : Int) + era * 400 + (if m ≤ 2 then 1 else 0)
  pad4 y.natAbs ++ "-" ++ pad2 m ++ "-" ++ pad2 d ++ "T" ++
    pad2 (msod / 3600000) ++ ":" ++ pad2 (msod % 3600000 / 60000) ++ ":" ++
    pad2 (msod % 60000 / 1000) ++ "." ++ pad3 (msod % 1000) ++ "Z"

/-! ## Message normalizer (lines 240-272) -/

/-- Line 266-270: the truncated attachment record
`{title: a.title, text: a.text?.substring(0,200), color: a.color}`. -/
def truncAttachment (a : Attachment) : Attachment :=
  { title := a.title, text := a.text.map (strTake 200), color := a.color }

/-- The body of the `result.messages.map` callback (lines 240-272): one
`ParsedBuild` per raw message. `none` models the `RangeError` thrown by the
timestamp conversion on an invalid `ts`; for every parsable `ts` the
normalizer is total — extraction failures degrade to `"unknown"`/`null`. -/
def buildMessage (msg : RawMessage) : Option ParsedBuild :=
  match parseTsMillis msg.ts with
  | none => none
  | some t =>
    let text := msg.text.getD ""
    some
      { timestamp := isoOfMillis t,
        status := classifyStatus text,
        workflow := extractWorkflow text msg.attachments,
        duration := extractDuration text msg.attachments,
        text := strTake 500 text,
        attachments := msg.attachments.map (List.map truncAttachment) }

/-- The error shape of a rejected Slack call: `error.message` and
`error.data?.error` (used by the `missing_scope` check on line 378). -/
structure SlackError where
  message : String
  dataError : Option String
deriving Repr, DecidableEq

/-- Mapping `buildMessage` over the fetched messages; a message with an
invalid `ts` makes the whole `.map` throw `RangeError: Invalid time value`,
which propagates to the dispatcher's `catch`. -/
def parseAllMessages : List RawMessage → Except SlackError (List ParsedBuild)
  | [] => .ok []
  | m :: ms =>
    match buildMessage m with
    | none => .error { message := "Invalid time value", dataError := none }
    | some pb =>
      match parseAllMessages ms with
      | .ok rest => .ok (pb :: rest)
      | .error e => .error e

/-! ## Filter/limit pipeline (lines 161-167 and 275-286) -/

/-- Line 163: `workflowFilter ? Math.min((args?.limit || 5) * 4, 100)
: Math.min(args?.limit || 5, 20)`. The filter-branch multiplies the raw
(unclamped) limit. -/
def fetchLimit (limitArg : Option Nat) (workflowFilter : Option String) : Nat :=
  if jsTruthyStr workflowFilter then min (jsOrNat limitArg 5 * 4) 100
  else min (jsOrNat limitArg 5) 20

/-- The filter callback (lines 276-281): the lower-cased workflow field, the
lower-cased (already truncated) text, or the lower-cased joined attachment
title+text contains the (lower-cased) filter. -/
def filterPred (wf : String) (pb : ParsedBuild) : Bool :=
  let workflow := lowerStr (pb.workflow.getD "")
  let text := lowerStr pb.text
  let attachmentText := lowerStr (attachmentsBlob pb.attachments)
  containsStr workflow wf || containsStr text wf || containsStr attachmentText wf

/-- Lines 275-286: apply the workflow filter when truthy, then
`slice(0, Math.min(args?.limit || 5, 20))`. `workflowFilter` is the
already lower-cased `args.workflow`. -/
def checkBuildBuilds (workflowFilter : Option String) (limitArg : Option Nat)
    (parsed : List ParsedBuild) : List ParsedBuild :=
  let bs := if jsTruthyStr workflowFilter
    then parsed.filter (filterPred (workflowFilter.getD "")) else parsed
  bs.take (min (jsOrNat limitArg 5) 20)

/-! ## JSON serialization (the `JSON.stringify(..., null, 2)` calls)

Rendered compactly: the two-space pretty-printing is presentation only and no
claim inspects a serialized success payload. Field insertion order and the
omission of `undefined`-valued fields are preserved. -/

inductive JVal where
  | jnull : JVal
  | jbool : Bool → JVal
  | jnum : Int → JVal
  | jstr : String → JVal
  | jarr : List JVal → JVal
  | jobj : List (String × JVal) → JVal

/-- JSON string escaping (quote, backslash and the common control characters;
other code points are emitted verbatim). -/
def escJsonChar (c : Char) : String :=
  if c == '"' then "\\\""
  else if c == '\\' then "\\\\"
  else if c == '\n' then "\\n"
  else if c == '\r' then "\\r"
  else if c == '\t' then "\\t"
  else String.singleton c

def escJson (s : String) : String := String.join (s.data.map escJsonChar)

mutual
def jvalRender : JVal → String
  | .jnull => "null"
  | .jbool b => if b then "true" else "false"
  | .jnum n => toString n
  | .jstr s => "\"" ++ escJson s ++ "\""
  | .jarr l => "[" ++ jvalRenderArr l ++ "]"
  | .jobj l => "\x7b" ++ jvalRenderObj l ++ "\x7d"

def jvalRenderArr : List JVal → String
  | [] => ""
  | [x] => jvalRender x
  | x :: y :: xs => jvalRender x ++ "," ++ jvalRenderArr (y :: xs)

def jvalRenderObj : List (String × JVal) → String
  | [] => ""
  | [(k, v)] => "\"" ++ escJson k ++ "\":" ++ jvalRender v
  | (k, v) :: y :: xs => "\"" ++ escJson k ++ "\":" ++ jvalRender v ++ "," ++ jvalRenderObj (y :: xs)
end

/-- An object field holding a possibly-`undefined` string: `undefined` fields
are omitted by `JSON.stringify`. -/
def optStrField (name : String) (o : Option String) : List (String × JVal) :=
  match o with
  | some s => [(name, .jstr s)]
  | none => []

/-- Duration object fields in source order (lines 199-204). -/
def durationJson (d : Duration) : JVal :=
  .jobj [("minutes", .jnum d.minutes), ("seconds", .jnum d.seconds),
         ("totalSeconds", .jnum d.totalSeconds), ("formatted", .jstr d.formatted)]

/-- A truncated attachment as serialized (lines 266-270). -/
def attachmentJson (a : Attachment) : JVal :=
  .jobj (optStrField "title" a.title ++ optStrField "text" a.text ++ optStrField "color" a.color)

/-- A `buildMessages` entry as serialized (lines 260-271): `workflow` and
`duration` are explicit `null` when absent, `attachments` is omitted when the
source message had none. -/
def parsedBuildJson (pb : ParsedBuild) : JVal :=
  .jobj ([("timestamp", .jstr pb.timestamp), ("status", .jstr pb.status),
          ("workflow", match pb.workflow with | some w => .jstr w | none => .jnull),
          ("duration", match pb.duration with | some d => durationJson d | none => .jnull),
          ("text", .jstr pb.text)] ++
         (match pb.attachments with
          | some l => [("attachments", .jarr (l.map attachmentJson))]
          | none => []))

/-! ## Tool dispatcher (lines 144-485) -/

/-- The uniform response envelope: `content` items plus the optional
`isError` flag (`none` models an absent `isError` field). -/
structure ContentItem where
  type : String
  text : String
deriving Repr, DecidableEq

structure Envelope where
  content : List ContentItem
  isError : Option Bool
deriving Repr, DecidableEq

/-- `{ content: [{type: "text", text: s}] }` with no `isError` field. -/
def textEnvelope (s : String) : Envelope :=
  { content := [{ type := "text", text := s }], isError := none }

/-- Process configuration read at startup: `SLACK_BUILD_CHANNEL_ID`
(`SLACK_BOT_TOKEN` is fatal-checked before the server starts and does not
appear in any handler). -/
structure Config where
  buildChannelId : Option String
deriving Repr, DecidableEq

/-- `conversations.history` response: `result.messages` may be absent. -/
structure HistoryResponse where
  messages : Option (List RawMessage)

/-- One `search.messages` match (`match.ts`, `match.channel?.name`,
`match.text`, `match.user`). -/
structure SearchMatch where
  ts : String
  channelName : Option String
  text : Option String
  user : Option String

/-- `search.messages` response, flattening the `result.messages` wrapper:
`matchList` models `result.messages?.matches` and `total` models
`result.messages?.total`. -/
structure SearchResponse where
  matchList : Option (List SearchMatch)
  total : Option Nat

/-- `chat.postMessage` response fields used on lines 427-431. -/
structure PostResponse where
  ok : Bool
  ts : String
  channel : String

/-- One `conversations.list` channel record (fields used on lines 445-451;
each may be absent). -/
structure ChannelInfo where
  id : Option String
  name : Option String
  isPrivate : Option Bool
  isMember : Option Bool
  topicValue : Option String

/-- The external Slack client: each call either returns a response or throws
a `SlackError`. The dispatcher's claims quantify over all such clients. -/
structure SlackOracle where
  history : String → Nat → Except SlackError HistoryResponse
  search : String → Nat → Except SlackError SearchResponse
  post : String → String → Except SlackError PostResponse
  listChannels : Nat → Except SlackError (List ChannelInfo)

/-- The argument mapping of a tool invocation: every property any tool reads,
each possibly absent. -/
structure ToolArgs where
  limit : Option Nat
  channelId : Option String
  workflow : Option String
  query : Option String
  text : Option String
deriving Repr, DecidableEq

structure ToolRequest where
  name : String
  args : ToolArgs
deriving Repr, DecidableEq

/-- `check_build_status` (lines 149-300). -/
def handleCheckBuildStatus (cfg : Config) (oracle : SlackOracle) (args : ToolArgs) :
    Except SlackError Envelope :=
  if !jsTruthyStr cfg.buildChannelId then
    .ok (textEnvelope "Error: SLACK_BUILD_CHANNEL_ID not configured. Please set it in your MCP config.")
  else
    let workflowFilter := args.workflow.map lowerStr
    match oracle.history (cfg.buildChannelId.getD "") (fetchLimit args.limit workflowFilter) with
    | .error e => .error e
    | .ok res =>
      let msgs := res.messages.getD []
      if msgs.isEmpty then .ok (textEnvelope "No build messages found in the channel.")
      else
        match parseAllMessages msgs with
        | .error e => .error e
        | .ok parsed =>
          let builds := checkBuildBuilds workflowFilter args.limit parsed
          .ok (textEnvelope (jvalRender (.jobj
            [("builds", .jarr (builds.map parsedBuildJson)),
             ("filter", if jsTruthyStr workflowFilter
                then .jobj [("workflow", .jstr (args.workflow.getD ""))] else .jnull),
             ("count", .jnum builds.length)])))

/-- The `result.messages.map` of `get_channel_messages` (lines 321-326); a
message with an invalid `ts` throws. -/
def renderChannelMsgs : List RawMessage → Except SlackError (List JVal)
  | [] => .ok []
  | m :: ms =>
    match parseTsMillis m.ts with
    | none => .error { message := "Invalid time value", dataError := none }
    | some t =>
      match renderChannelMsgs ms with
      | .error e => .error e
      | .ok rest =>
        .ok ((JVal.jobj ([("timestamp", .jstr (isoOfMillis t))] ++
          optStrField "user" m.user ++
          optStrField "text" (m.text.map (strTake 500)) ++
          optStrField "bot_id" m.botId)) :: rest)

/-- `get_channel_messages` (lines 302-336). -/
def handleGetChannelMessages (cfg : Config) (oracle : SlackOracle) (args : ToolArgs) :
    Except SlackError Envelope :=
  let channelId := jsOrStr args.channelId cfg.buildChannelId
  if !jsTruthyStr channelId then
    .ok (textEnvelope "Error: No channel_id provided and SLACK_BUILD_CHANNEL_ID not configured.")
  else
    match oracle.history (channelId.getD "") (min (jsOrNat args.limit 10) 100) with
    | .error e => .error e
    | .ok res =>
      match renderChannelMsgs (res.messages.getD []) with
      | .error e => .error e
      | .ok ms => .ok (textEnvelope (jvalRender (.jobj [("messages", .jarr ms)])))

/-- The `matches.map` of `search_messages` (lines 361-366). -/
def renderSearchMatches : List SearchMatch → Except SlackError (List JVal)
  | [] => .ok []
  | m :: ms =>
    match parseTsMillis m.ts with
    | none => .error { message := "Invalid time value", dataError := none }
    | some t =>
      match renderSearchMatches ms with
      | .error e => .error e
      | .ok rest =>
        .ok ((JVal.jobj ([("timestamp", .jstr (isoOfMillis t))] ++
          optStrField "channel" m.channelName ++
          optStrField "text" (m.text.map (strTake 500)) ++
          optStrField "user" m.user)) :: rest)

/-- `search_messages` (lines 338-390): missing query is a soft error; a
thrown `missing_scope` error is translated inside the inner `catch`, any
other error is rethrown. -/
def handleSearchMessages (oracle : SlackOracle) (args : ToolArgs) :
    Except SlackError Envelope :=
  if !jsTruthyStr args.query then
    .ok (textEnvelope "Error: query parameter is required")
  else
    match oracle.search (args.query.getD "") (min (jsOrNat args.limit 10) 100) with
    | .ok res =>
      match renderSearchMatches (res.matchList.getD []) with
      | .error e => .error e
      | .ok ms =>
        .ok (textEnvelope (jvalRender (.jobj
          [("results", .jarr ms), ("total", .jnum (res.total.getD 0))])))
    | .error e =>
      if e.dataError == some "missing_scope" then
        .ok (textEnvelope "Error: Bot token missing \x27search:read\x27 scope. Add it in your Slack App settings.")
      else .error e

/-- `send_message` (lines 392-435). -/
def handleSendMessage (cfg : Config) (oracle : SlackOracle) (args : ToolArgs) :
    Except SlackError Envelope :=
  let channelId := jsOrStr args.channelId cfg.buildChannelId
  if !jsTruthyStr channelId then
    .ok (textEnvelope "Error: No channel_id provided and SLACK_BUILD_CHANNEL_ID not configured.")
  else if !jsTruthyStr args.text then
    .ok (textEnvelope "Error: text parameter is required")
  else
    match oracle.post (channelId.getD "") (args.text.getD "") with
    | .error e => .error e
    | .ok res =>
      .ok (textEnvelope (jvalRender (.jobj
        [("success", .jbool res.ok), ("timestamp", .jstr res.ts),
         ("channel", .jstr res.channel)])))

/-- `list_channels` (lines 437-461). -/
def handleListChannels (oracle : SlackOracle) (args : ToolArgs) :
    Except SlackError Envelope :=
  match oracle.listChannels (min (jsOrNat args.limit 50) 200) with
  | .error e => .error e
  | .ok chans =>
    .ok (textEnvelope (jvalRender (.jobj [("channels", .jarr (chans.map fun ch =>
      .jobj (optStrField "id" ch.id ++ optStrField "name" ch.name ++
        (match ch.isPrivate with | some b => [("is_private", JVal.jbool b)] | none => []) ++
        (match ch.isMember with | some b => [("is_member", JVal.jbool b)] | none => []) ++
        optStrField "topic" (ch.topicValue.map (strTake 100)))))])))

/-- The `switch` over tool names (lines 148-473): the default case returns
the unknown-tool envelope with `isError: true`; a thrown `SlackError` is
propagated to the surrounding `catch`. -/
def runTool (cfg : Config) (oracle : SlackOracle) (req : ToolRequest) :
    Except SlackError Envelope :=
  if req.name = "check_build_status" then handleCheckBuildStatus cfg oracle req.args
  else if req.name = "get_channel_messages" then handleGetChannelMessages cfg oracle req.args
  else if req.name = "search_messages" then handleSearchMessages oracle req.args
  else if req.name = "send_message" then handleSendMessage cfg oracle req.args
  else if req.name = "list_channels" then handleListChannels oracle req.args
  else .ok { content := [{ type := "text", text := "Unknown tool: " ++ req.name }],
             isError := some true }

/-- The five tool names registered in the `ListTools` catalogue and handled
by the `switch`. -/
def knownToolNames : List String :=
  ["check_build_status", "get_channel_messages", "search_messages", "send_message",
   "list_channels"]

/-- The whole `CallToolRequestSchema` handler (lines 144-485): the `try`
around the `switch` catches any thrown error and returns the
`Slack API error: ...` envelope with `isError: true`. Total — the process
never crashes on a handler error. -/
def callTool (cfg : Config) (oracle : SlackOracle) (req : ToolRequest) : Envelope :=
  match runTool cfg oracle req with
  | .ok env => env
  | .error e =>
    { content := [{ type := "text", text := "Slack API error: " ++ e.message }],
      isError := some true }

/-! ## Claims -/

/-- C1: the status classifier performs case-insensitive substring checks for
the keyword groups in the fixed order succeeded/success, failed/failure,
started/running, cancelled/canceled, returning the first group that matches;
in particular every text containing both "failed" and "running" (and no
succeeded-group keyword) classifies as "failed". -/
theorem classifyStatus_cascade (text : String) :
    ((containsStr (lowerStr text) "succeeded" || containsStr (lowerStr text) "success") = true →
      classifyStatus text = "succeeded") ∧
    ((containsStr (lowerStr text) "succeeded" || containsStr (lowerStr text) "success") = false →
     (containsStr (lowerStr text) "failed" || containsStr (lowerStr text) "failure") = true →
      classifyStatus text = "failed") ∧
    ((containsStr (lowerStr text) "succeeded" || containsStr (lowerStr text) "success") = false →
     (containsStr (lowerStr text) "failed" || containsStr (lowerStr text) "failure") = false →
     (containsStr (lowerStr text) "started" || containsStr (lowerStr text) "running") = true →
      classifyStatus text = "running") ∧
    ((containsStr (lowerStr text) "succeeded" || containsStr (lowerStr text) "success") = false →
     (containsStr (lowerStr text) "failed" || containsStr (lowerStr text) "failure") = false →
     (containsStr (lowerStr text) "started" || containsStr (lowerStr text) "running") = false →
     (containsStr (lowerStr text) "cancelled" || containsStr (lowerStr text) "canceled") = true →
      classifyStatus text = "cancelled") ∧
    ((containsStr (lowerStr text) "succeeded" || containsStr (lowerStr text) "success") = false →
     (containsStr (lowerStr text) "failed" || containsStr (lowerStr text) "failure") = false →
     (containsStr (lowerStr text) "started" || containsStr (lowerStr text) "running") = false →
     (containsStr (lowerStr text) "cancelled" || containsStr (lowerStr text) "canceled") = false →
      classifyStatus text = "unknown") ∧
    (containsStr (lowerStr text) "failed" = true →
     containsStr (lowerStr text) "running" = true →
     (containsStr (lowerStr text) "succeeded" || containsStr (lowerStr text) "success") = false →
      classifyStatus text = "failed") := by
  refine ⟨?_, ?_, ?_, ?_, ?_, ?_⟩ <;> intros <;> simp_all [classifyStatus]

theorem classifyStatus_cascade_witness :
    classifyStatus "x failed while running" = "failed" :=
  (classifyStatus_cascade "x failed while running").2.2.2.2.2 (by decide) (by decide) (by decide)

/-- C2: the duration extractor tries its five patterns in the fixed priority
order duration:/took/completed in/bare N min/MM:SS and returns the first
match; on "Build completed in 5 minutes 30 seconds" it returns exactly
`{minutes := 5, seconds := 30, totalSeconds := 330, formatted := "5m 30s"}`;
on any text matching none of the five patterns it returns `none`. -/
theorem extractDuration_priority :
    (extractDuration "Build completed in 5 minutes 30 seconds" none =
      some { minutes := 5, seconds := 30, totalSeconds := 330, formatted := "5m 30s" }) ∧
    (∀ text atts, (∀ p ∈ durationPatterns, searchFrom p (combinedText text atts).data = none) →
      extractDuration text atts = none) ∧
    (∀ text atts caps,
      searchFrom durationPat1 (combinedText text atts).data = some caps →
      extractDuration text atts = some (capsToDuration caps)) ∧
    (∀ text atts caps,
      searchFrom durationPat1 (combinedText text atts).data = none →
      searchFrom durationPat2 (combinedText text atts).data = some caps →
      extractDuration text atts = some (capsToDuration caps)) ∧
    (∀ text atts caps,
      searchFrom durationPat1 (combinedText text atts).data = none →
      searchFrom durationPat2 (combinedText text atts).data = none →
      searchFrom durationPat3 (combinedText text atts).data = some caps →
      extractDuration text atts = some (capsToDuration caps)) ∧
    (∀ text atts caps,
      searchFrom durationPat1 (combinedText text atts).data = none →
      searchFrom durationPat2 (combinedText text atts).data = none →
      searchFrom durationPat3 (combinedText text atts).data = none →
      searchFrom durationPat4 (combinedText text atts).data = some caps →
      extractDuration text atts = some (capsToDuration caps)) ∧
    (∀ text atts caps,
      searchFrom durationPat1 (combinedText text atts).data = none →
      searchFrom durationPat2 (combinedText text atts).data = none →
      searchFrom durationPat3 (combinedText text atts).data = none →
      searchFrom durationPat4 (combinedText text atts).data = none →
      searchFrom durationPat5 (combinedText text atts).data = some caps →
      extractDuration text atts = some (capsToDuration caps)) := by
  refine ⟨by decide, ?_, ?_, ?_, ?_, ?_, ?_⟩
  · intro text atts h
    have h1 := h durationPat1 (by simp [durationPatterns])
    have h2 := h durationPat2 (by simp [durationPatterns])
    have h3 := h durationPat3 (by simp [durationPatterns])
    have h4 := h durationPat4 (by simp [durationPatterns])
    have h5 := h durationPat5 (by simp [durationPatterns])
    simp [extractDuration, durationPatterns, h1, h2, h3, h4, h5]
  · intro text atts caps h1
    simp [extractDuration, durationPatterns, h1]
  · intro text atts caps h1 h2
    simp [extractDuration, durationPatterns, h1, h2]
  · intro text atts caps h1 h2 h3
    simp [extractDuration, durationPatterns, h1, h2, h3]
  · intro text atts caps h1 h2 h3 h4
    simp [extractDuration, durationPatterns, h1, h2, h3, h4]
  · intro text atts caps h1 h2 h3 h4 h5
    simp [extractDuration, durationPatterns, h1, h2, h3, h4, h5]

theorem extractDuration_priority_witness :
    extractDuration "no numbers here at all" none = none :=
  extractDuration_priority.2.1 "no numbers here at all" none (by decide)

/-- C3 (counterexample): the workflow extractor applied to
"Workflow: Nutri-E build finished" does not return "Nutri-E" — the capture
group `([^\n\r,]+)` extends to the end of the line. -/
theorem extractWorkflow_nutriE_claim_false :
    ¬ extractWorkflow "Workflow: Nutri-E build finished" none = some "Nutri-E" := by decide

/-- C3 (amended): the workflow extractor, applied to the message text
"Workflow: Nutri-E build finished" with no attachments, returns the trimmed
remainder of the line after "Workflow:", namely "Nutri-E build finished". -/
theorem extractWorkflow_nutriE_amended :
    extractWorkflow "Workflow: Nutri-E build finished" none =
      some "Nutri-E build finished" := by decide

theorem strTake_length_le (n : Nat) (s : String) : (strTake n s).length ≤ n := by
  show (s.data.take n).length ≤ n
  rw [List.length_take]
  omega

/-- C4: for every raw message (any body text including absent, any attachment
list including absent), normalization produces exactly one `ParsedBuild`:
when no status keyword matches the status is "unknown", and when neither
workflow patterns-and-fallback nor any duration pattern produce a value those
fields are absent — extraction failures never raise. (`ts` must convert to a
valid date; the timestamp is outside the claim's quantification.) -/
theorem buildMessage_total (ts : String) (text : Option String)
    (atts : Option (List Attachment)) (u b : Option String) (t : Int)
    (hts : parseTsMillis ts = some t) :
    ∃ pb,
      buildMessage { ts := ts, text := text, attachments := atts, user := u, botId := b } =
        some pb ∧
      ((∀ kw ∈ statusKeywords, containsStr (lowerStr (text.getD "")) kw = false) →
        pb.status = "unknown") ∧
      (searchFrom workflowPat1 (combinedText (text.getD "") atts).data = none →
       tryMatch workflowPat2 (combinedText (text.getD "") atts).data = none →
       titleFallback atts = none →
       pb.workflow = none) ∧
      ((∀ p ∈ durationPatterns, searchFrom p (combinedText (text.getD "") atts).data = none) →
        pb.duration = none) := by
  refine ⟨{ timestamp := isoOfMillis t, status := classifyStatus (text.getD ""),
            workflow := extractWorkflow (text.getD "") atts,
            duration := extractDuration (text.getD "") atts,
            text := strTake 500 (text.getD ""),
            attachments := atts.map (List.map truncAttachment) }, ?_, ?_, ?_, ?_⟩
  · simp [buildMessage, hts]
  · intro h
    have h1 := h "succeeded" (by simp [statusKeywords])
    have h2 := h "success" (by simp [statusKeywords])
    have h3 := h "failed" (by simp [statusKeywords])
    have h4 := h "failure" (by simp [statusKeywords])
    have h5 := h "started" (by simp [statusKeywords])
    have h6 := h "running" (by simp [statusKeywords])
    have h7 := h "cancelled" (by simp [statusKeywords])
    have h8 := h "canceled" (by simp [statusKeywords])
    simp [classifyStatus, h1, h2, h3, h4, h5, h6, h7, h8]
  · intro h1 h2 h3
    simp [extractWorkflow, h1, h2, h3]
  · intro h
    have h1 := h durationPat1 (by simp [durationPatterns])
    have h2 := h durationPat2 (by simp [durationPatterns])
    have h3 := h durationPat3 (by simp [durationPatterns])
    have h4 := h durationPat4 (by simp [durationPatterns])
    have h5 := h durationPat5 (by simp [durationPatterns])
    simp [extractDuration, durationPatterns, h1, h2, h3, h4, h5]

theorem buildMessage_total_witness :
    ∃ pb,
      buildMessage { ts := "1700000000.123456", text := none, attachments := none,
                     user := none, botId := none } = some pb ∧
      pb.status = "unknown" ∧ pb.workflow = none ∧ pb.duration = none := by
  obtain ⟨pb, hpb, hs, hw, hd⟩ :=
    buildMessage_total "1700000000.123456" none none none none 1700000000123 (by decide)
  exact ⟨pb, hpb, hs (by decide), hw (by decide) (by decide) (by decide), hd (by decide)⟩

/-- C7: every `ParsedBuild` carries the first 500 characters of the body (so
its length is at most 500), and each truncated attachment keeps its title
unmodified while its text is the first 200 characters of the input text (so
at most 200 long). -/
theorem buildMessage_truncation (msg : RawMessage) (pb : ParsedBuild)
    (h : buildMessage msg = some pb) :
    pb.text = strTake 500 (msg.text.getD "") ∧
    pb.text.length ≤ 500 ∧
    pb.attachments = msg.attachments.map (List.map truncAttachment) ∧
    (∀ l, pb.attachments = some l → ∀ a ∈ l, ∀ s, a.text = some s → s.length ≤ 200) := by
  rcases hts : parseTsMillis msg.ts with _ | t
  · simp [buildMessage, hts] at h
  · simp only [buildMessage, hts] at h
    rw [Option.some_inj] at h
    subst h
    refine ⟨rfl, strTake_length_le 500 (msg.text.getD ""), rfl, ?_⟩
    intro l hl a ha s hs
    rcases hatt : msg.attachments with _ | l0
    · rw [hatt] at hl
      simp at hl
    · rw [hatt] at hl
      simp only [Option.map_some'] at hl
      rw [Option.some_inj] at hl
      subst hl
      obtain ⟨a0, _, rfl⟩ := List.mem_map.mp ha
      simp only [truncAttachment] at hs
      rcases ha0 : a0.text with _ | s0
      · simp [ha0] at hs
      · rw [ha0] at hs
        simp only [Option.map_some'] at hs
        rw [Option.some_inj] at hs
        subst hs
        exact strTake_length_le 200 s0

theorem buildMessage_truncation_witness :
    ∃ pb,
      buildMessage { ts := "1.5", text := some "hi", attachments := none,
                     user := none, botId := none } = some pb ∧
      pb.text.length ≤ 500 := by
  obtain ⟨pb, hpb⟩ :
      ∃ pb, buildMessage { ts := "1.5", text := some "hi", attachments := none,
                           user := none, botId := none } = some pb := ⟨_, rfl⟩
  exact ⟨pb, hpb, (buildMessage_truncation _ pb hpb).2.1⟩

/-- C9: the build status is determined solely by the raw body text — two raw
messages with equal body text but arbitrary attachment lists (and authors)
receive the same status. -/
theorem buildStatus_ignores_attachments (ts₁ ts₂ : String) (text : Option String)
    (a₁ a₂ : Option (List Attachment)) (u₁ u₂ b₁ b₂ : Option String)
    (pb₁ pb₂ : ParsedBuild)
    (h₁ : buildMessage { ts := ts₁, text := text, attachments := a₁, user := u₁, botId := b₁ } =
      some pb₁)
    (h₂ : buildMessage { ts := ts₂, text := text, attachments := a₂, user := u₂, botId := b₂ } =
      some pb₂) :
    pb₁.status = pb₂.status := by
  rcases hp₁ : parseTsMillis ts₁ with _ | t₁
  · simp [buildMessage, hp₁] at h₁
  · rcases hp₂ : parseTsMillis ts₂ with _ | t₂
    · simp [buildMessage, hp₂] at h₂
    · simp only [buildMessage, hp₁] at h₁
      simp only [buildMessage, hp₂] at h₂
      rw [Option.some_inj] at h₁ h₂
      subst h₁
      subst h₂
      rfl

theorem buildStatus_ignores_attachments_witness :
    ∃ pb₁ pb₂,
      buildMessage { ts := "1.5", text := some "build failed", attachments := none,
                     user := none, botId := none } = some pb₁ ∧
      buildMessage { ts := "2.5", text := some "build failed",
                     attachments := some [{ title := some "build succeeded", text := none,
                                            color := none }],
                     user := none, botId := none } = some pb₂ ∧
      pb₁.status = pb₂.status := by
  obtain ⟨pb₁, h₁⟩ :
      ∃ pb, buildMessage { ts := "1.5", text := some "build failed", attachments := none,
                           user := none, botId := none } = some pb := ⟨_, rfl⟩
  obtain ⟨pb₂, h₂⟩ :
      ∃ pb, buildMessage { ts := "2.5", text := some "build failed",
                           attachments := some [{ title := some "build succeeded", text := none,
                                                  color := none }],
                           user := none, botId := none } = some pb := ⟨_, rfl⟩
  exact ⟨pb₁, pb₂, h₁, h₂,
    buildStatus_ignores_attachments "1.5" "2.5" (some "build failed") none _ none none none none
      pb₁ pb₂ h₁ h₂⟩

theorem lowerStr_ne_empty {s : String} (h : s ≠ "") : lowerStr s ≠ "" := by
  intro he
  apply h
  have hd : s.data.map Char.toLower = [] := congrArg String.data he
  have hnil : s.data = [] := by simpa using hd
  exact String.ext hnil

/-- C5: with a non-empty workflow filter F, `check_build_status` retains
exactly the parsed builds whose lower-cased workflow, lower-cased truncated
text, or lower-cased joined attachment title+text contains the lower-cased F,
and returns the first `min(args.limit || 5, 20)` of them in source order:
never more than that bound, and exactly the survivors when fewer survive. -/
theorem checkBuild_filter_limit (F : String) (limitArg : Option Nat)
    (parsed : List ParsedBuild) (hF : F ≠ "") :
    checkBuildBuilds (some (lowerStr F)) limitArg parsed =
      (parsed.filter fun pb =>
        containsStr (lowerStr (pb.workflow.getD "")) (lowerStr F) ||
        containsStr (lowerStr pb.text) (lowerStr F) ||
        containsStr (lowerStr (attachmentsBlob pb.attachments)) (lowerStr F)).take
        (min (jsOrNat limitArg 5) 20) ∧
    (checkBuildBuilds (some (lowerStr F)) limitArg parsed).length ≤
      min (jsOrNat limitArg 5) 20 ∧
    ((parsed.filter (filterPred (lowerStr F))).length ≤ min (jsOrNat limitArg 5) 20 →
      checkBuildBuilds (some (lowerStr F)) limitArg parsed =
        parsed.filter (filterPred (lowerStr F))) := by
  have hne := lowerStr_ne_empty hF
  have ht : jsTruthyStr (some (lowerStr F)) = true := by simp [jsTruthyStr, hne]
  have hfp : filterPred (lowerStr F) = fun pb =>
      containsStr (lowerStr (pb.workflow.getD "")) (lowerStr F) ||
      containsStr (lowerStr pb.text) (lowerStr F) ||
      containsStr (lowerStr (attachmentsBlob pb.attachments)) (lowerStr F) := by
    funext pb
    simp [filterPred]
  refine ⟨?_, ?_, ?_⟩
  · simp [checkBuildBuilds, ht, hfp]
  · simp only [checkBuildBuilds, ht, if_pos, Option.getD_some]
    rw [List.length_take]
    omega
  · intro hlen
    simp only [checkBuildBuilds, ht, if_pos, Option.getD_some]
    exact List.take_of_length_le hlen

theorem checkBuild_filter_limit_witness :
    checkBuildBuilds (some (lowerStr "a")) none [] = [] := by
  have h := checkBuild_filter_limit "a" none [] (by decide)
  simpa using h.2.2 (by simp)

/-- C6 (counterexample): with a workflow filter and requested limit 21 the
code fetches `min(21*4, 100) = 84` messages, not `min(min(21,20)*4, 100) = 80`
as the claim's clamped-L formula states. -/
theorem fetchLimit_claim_false :
    ¬ fetchLimit (some 21) (some "x") = min (min 21 20 * 4) 100 := by decide

/-- C6 (amended): with a truthy workflow filter, `check_build_status` requests
`min(Lraw*4, 100)` raw messages where `Lraw` is the user-specified limit
defaulting to 5 and NOT clamped to 20 (the clamp applies only to the final
slice); with no filter it requests `min(Lraw, 20)` messages. The third
conjunct shows the handler consults the source only at that computed fetch
limit. -/
theorem fetchLimit_amended :
    (∀ limitArg wf, jsTruthyStr wf = true →
      fetchLimit limitArg wf = min (jsOrNat limitArg 5 * 4) 100) ∧
    (∀ limitArg wf, jsTruthyStr wf = false →
      fetchLimit limitArg wf = min (jsOrNat limitArg 5) 20) ∧
    (∀ (cfg : Config) (o₁ o₂ : SlackOracle) (args : ToolArgs),
      o₁.history (cfg.buildChannelId.getD "")
          (fetchLimit args.limit (args.workflow.map lowerStr)) =
        o₂.history (cfg.buildChannelId.getD "")
          (fetchLimit args.limit (args.workflow.map lowerStr)) →
      handleCheckBuildStatus cfg o₁ args = handleCheckBuildStatus cfg o₂ args) := by
  refine ⟨?_, ?_, ?_⟩
  · intro limitArg wf h
    simp [fetchLimit, h]
  · intro limitArg wf h
    simp [fetchLimit, h]
  · intro cfg o₁ o₂ args h
    by_cases hch : jsTruthyStr cfg.buildChannelId
    · simp [handleCheckBuildStatus, hch, h]
    · simp [handleCheckBuildStatus, hch]

theorem fetchLimit_amended_witness :
    fetchLimit (some 21) (some "x") = 84 := by
  have h := fetchLimit_amended.1 (some 21) (some "x") (by decide)
  exact h.trans (by decide)

/-- A Slack client that rejects every call (used to exercise the dispatcher's
catch-all path). -/
def errHistoryOracle : SlackOracle :=
  { history := fun _ _ => .error { message := "boom", dataError := none },
    search := fun _ _ => .error { message := "boom", dataError := none },
    post := fun _ _ => .error { message := "boom", dataError := none },
    listChannels := fun _ => .error { message := "boom", dataError := none } }

/-- An invocation with no arguments supplied. -/
def emptyToolArgs : ToolArgs :=
  { limit := none, channelId := none, workflow := none, query := none, text := none }

/-- C8: any error thrown during tool handling is caught at the dispatcher
boundary and returned as an envelope with `isError: true` and
`Slack API error: <message>` as the text body (the dispatcher is a total
function — the process never crashes); every unknown tool name yields the
`Unknown tool: <name>` envelope with `isError: true`. -/
theorem callTool_catches :
    (∀ (cfg : Config) (oracle : SlackOracle) (req : ToolRequest) (e : SlackError),
      runTool cfg oracle req = Except.error e →
      callTool cfg oracle req =
        { content := [{ type := "text", text := "Slack API error: " ++ e.message }],
          isError := some true }) ∧
    (∀ (cfg : Config) (oracle : SlackOracle) (req : ToolRequest),
      req.name ∉ knownToolNames →
      callTool cfg oracle req =
        { content := [{ type := "text", text := "Unknown tool: " ++ req.name }],
          isError := some true }) := by
  constructor
  · intro cfg oracle req e h
    simp [callTool, h]
  · intro cfg oracle req h
    simp only [knownToolNames, List.mem_cons, List.mem_singleton, not_or] at h
    obtain ⟨h1, h2, h3, h4, h5, -⟩ := h
    simp [callTool, runTool, h1, h2, h3, h4, h5]

theorem callTool_catches_witness :
    callTool { buildChannelId := some "C1" } errHistoryOracle
      { name := "check_build_status", args := emptyToolArgs } =
      { content := [{ type := "text", text := "Slack API error: boom" }],
        isError := some true } :=
  callTool_catches.1 _ _ _ { message := "boom", dataError := none } (by rfl)

/-- C10: the validation/configuration soft errors — missing build channel for
`check_build_status`, missing query for `search_messages`, missing channel or
missing text for `send_message`, and the known missing-scope case — return an
envelope whose `isError` flag is absent, unlike unknown-tool and caught
exceptions. -/
theorem soft_error_envelopes :
    (∀ (cfg : Config) (oracle : SlackOracle) (args : ToolArgs),
      jsTruthyStr cfg.buildChannelId = false →
      callTool cfg oracle { name := "check_build_status", args := args } =
        { content := [{ type := "text", text := "Error: SLACK_BUILD_CHANNEL_ID not configured. Please set it in your MCP config." }],
          isError := none }) ∧
    (∀ (cfg : Config) (oracle : SlackOracle) (args : ToolArgs),
      jsTruthyStr args.query = false →
      callTool cfg oracle { name := "search_messages", args := args } =
        { content := [{ type := "text", text := "Error: query parameter is required" }],
          isError := none }) ∧
    (∀ (cfg : Config) (oracle : SlackOracle) (args : ToolArgs),
      jsTruthyStr (jsOrStr args.channelId cfg.buildChannelId) = false →
      callTool cfg oracle { name := "send_message", args := args } =
        { content := [{ type := "text", text := "Error: No channel_id provided and SLACK_BUILD_CHANNEL_ID not configured." }],
          isError := none }) ∧
    (∀ (cfg : Config) (oracle : SlackOracle) (args : ToolArgs),
      jsTruthyStr (jsOrStr args.channelId cfg.buildChannelId) = true →
      jsTruthyStr args.text = false →
      callTool cfg oracle { name := "send_message", args := args } =
        { content := [{ type := "text", text := "Error: text parameter is required" }],
          isError := none }) ∧
    (∀ (cfg : Config) (oracle : SlackOracle) (args : ToolArgs) (e : SlackError),
      jsTruthyStr args.query = true →
      oracle.search (args.query.getD "") (min (jsOrNat args.limit 10) 100) = Except.error e →
      e.dataError = some "missing_scope" →
      callTool cfg oracle { name := "search_messages", args := args } =
        { content := [{ type := "text", text := "Error: Bot token missing \x27search:read\x27 scope. Add it in your Slack App settings." }],
          isError := none }) := by
  refine ⟨?_, ?_, ?_, ?_, ?_⟩
  · intro cfg oracle args h
    simp [callTool, runTool, handleCheckBuildStatus, h, textEnvelope]
  · intro cfg oracle args h
    simp [callTool, runTool, handleSearchMessages, h, textEnvelope]
  · intro cfg oracle args h
    simp [callTool, runTool, handleSendMessage, h, textEnvelope]
  · intro cfg oracle args h1 h2
    simp [callTool, runTool, handleSendMessage, h1, h2, textEnvelope]
  · intro cfg oracle args e h1 h2 h3
    simp [callTool, runTool, handleSearchMessages, h1, h2, h3, textEnvelope]

theorem soft_error_envelopes_witness :
    callTool { buildChannelId := none } errHistoryOracle
      { name := "check_build_status", args := emptyToolArgs } =
      { content := [{ type := "text", text := "Error: SLACK_BUILD_CHANNEL_ID not configured. Please set it in your MCP config." }],
        isError := none } :=
  soft_error_envelopes.1 _ _ _ (by rfl)
